import Mathlib

/-!
Verification of the Wavefront OBJ mesh loader
(`src/demos/26_bitmap_fonts/src/obj_parser.rs`).

The loader is shallowly embedded: each Rust function becomes a Lean
function of the same name, the mutable loop locals become explicit state
records, and every fallible operation returns a `RustRes` value that
distinguishes a normal `Ok`, a returned `Err`, and a Rust panic
(`unwrap` on `None`, slice index out of bounds, arithmetic overflow in
`skip_spaces`).  `f32` values are modelled as exact decimal rationals
in the canonical form `num / 10 ^ scale` (type `F32`); every numeric
literal appearing in the inputs considered here (`0.0`, `1.0`, `-1.0`,
small integers) is exactly representable in `f32` and the loader never
adds or multiplies coordinates — it only parses and moves them — so
this exact model agrees with the `f32` values and the `f32` equalities
the program computes.  `u32` arithmetic is
modelled with explicit wraparound `% 2^32` (release-profile semantics;
the spots where a debug build would instead panic on overflow are noted
at their definitions).  A `BufRead + Seek` reader is modelled as the
list of its lines plus a cursor, which is what `reader.lines()` and
`reader.seek(SeekFrom::Start(0))` observe.
-/

namespace ObjParser

/-- Error values returned by the loader.  In the source every error site
returns `Err(String)`; this type has one constructor per return site so
that statements can talk about the error's category.  The constructor
documentation quotes the message the site formats. -/
inductive LoadError where
  /-- Message `Invalid mesh face declaration: {line}` from `parse_vtn`
  when `scan_fmt!` does not produce all nine indices. -/
  | faceDeclVtn (line : String) : LoadError
  /-- Message `ERROR: invalid vertex position index in face` from the
  index guard in `parse_vtn`. -/
  | vpIndexVtn : LoadError
  /-- Message `ERROR: invalid texture coord index {} in face.` from the
  index guard in `parse_vtn`. -/
  | vtIndexVtn (idx : ℕ) : LoadError
  /-- Message `ERROR: invalid vertex normal index in face` from the
  index guard in `parse_vtn`. -/
  | vnIndexVtn : LoadError
  /-- Message `Invalid mesh face declaration: "{line}"` from `parse_vn`
  when `scan_fmt!` does not produce all six indices. -/
  | faceDeclVn (line : String) : LoadError
  /-- Message `ERROR: invalid vertex position index in face` from the
  index guard in `parse_vn`. -/
  | vpIndexVn : LoadError
  /-- Message `ERROR: invalid vertex normal index in face` from the
  index guard in `parse_vn`. -/
  | vnIndexVn : LoadError
  /-- Message `ERROR: file contains quads or does not match v vp/vt/vn
  layout ...` returned by `load_obj_mesh` when a face line's slash count
  is not 6. -/
  | unsupportedTopology : LoadError
  /-- Message `ERROR: This file contains a face element that is neither a
  vp/vt/vn index or a vp//vn index. Got line "{line}"` returned by
  `load_obj_mesh` when both face grammars fail. -/
  | malformedFaceLine (line : String) : LoadError
deriving DecidableEq

/-- Outcome of a Rust computation: a normal value, an `Err` propagated to
the caller, or a panic that aborts the process. -/
inductive RustRes (α : Type) where
  | ok : α → RustRes α
  | err : LoadError → RustRes α
  | panic : String → RustRes α
deriving DecidableEq

/-- Panic message of a slice or `Vec` access past the end. -/
def msgIndexOutOfBounds : String := "index out of bounds"

/-- Panic message of `Option::unwrap` applied to `None`. -/
def msgUnwrapNone : String := "called Option::unwrap() on a None value"

/-- Panic message of `bytes.len() - 1` in `skip_spaces` on an empty
line: a debug build panics on the `usize` underflow itself; a release
build wraps and then panics indexing `bytes[0]`.  Both profiles panic at
this spot, which is all the development relies on. -/
def msgSkipSpacesUnderflow : String := "attempt to subtract with overflow"

/-- Sequencing of Rust computations: `Err` returns and panics propagate. -/
def RustRes.bind {α β : Type} : RustRes α → (α → RustRes β) → RustRes β
  | .ok a, f => f a
  | .err e, _ => .err e
  | .panic m, _ => .panic m

@[simp] theorem RustRes.bind_ok {α β : Type} (a : α) (f : α → RustRes β) :
    RustRes.bind (.ok a) f = f a := rfl

@[simp] theorem RustRes.bind_err {α β : Type} (e : LoadError) (f : α → RustRes β) :
    RustRes.bind (.err e) f = .err e := rfl

@[simp] theorem RustRes.bind_panic {α β : Type} (m : String) (f : α → RustRes β) :
    RustRes.bind (.panic m) f = .panic m := rfl

theorem RustRes.bind_eq_ok {α β : Type} {x : RustRes α} {f : α → RustRes β} {b : β}
    (h : RustRes.bind x f = .ok b) : ∃ a, x = .ok a ∧ f a = .ok b := by
  cases x with
  | ok a => exact ⟨a, rfl, h⟩
  | err e => simp [RustRes.bind] at h
  | panic m => simp [RustRes.bind] at h

/-- Exact value of an `f32` coordinate, as the decimal rational
`num / 10 ^ scale` in canonical form (`scale = 0` or `num` not a
multiple of `10`), so that structural equality is numeric equality.
All coordinates these theorems evaluate are small decimals that `f32`
represents exactly, where this model and `f32` agree. -/
structure F32 where
  num : ℤ
  scale : ℕ
deriving DecidableEq

/-- Canonical form of `n / 10 ^ k`: strip factors of ten. -/
def canonF32 : ℤ → ℕ → F32
  | n, 0 => ⟨n, 0⟩
  | n, k + 1 => if n % 10 = 0 then canonF32 (n / 10) k else ⟨n, k + 1⟩

/-- Embedding of an integer-valued coordinate. -/
def F32.ofInt (n : ℤ) : F32 := ⟨n, 0⟩

/-- Read of `v[i]` on a `Vec<f32>`, panicking past the end. -/
def vecGet (v : List F32) (i : ℕ) : RustRes F32 :=
  if h : i < v.length then .ok (v.get ⟨i, h⟩) else .panic msgIndexOutOfBounds

/-- Write of `v[i] = x` on a `Vec<f32>`, panicking past the end. -/
def vecSet (v : List F32) (i : ℕ) (x : F32) : RustRes (List F32) :=
  if i < v.length then .ok (v.set i x) else .panic msgIndexOutOfBounds

/-- Reduction of a `u32` computation modulo `2^32`. -/
def u32wrap (n : ℕ) : ℕ := n % 4294967296

/-- Wrapping `x - 1` on a `u32` operand `x < 2^32`: release-profile
semantics of the `vp[j] - 1` subtractions in `parse_vtn` / `parse_vn`
(a debug build would panic here when `x = 0`; under either profile the
theorems about inputs that avoid `0` indices are unaffected). -/
def u32sub1 (x : ℕ) : ℕ := u32wrap (x + 4294967295)

/-- Value of `((idx - 1) * 3 + k) as usize` computed in `u32`. -/
def idx3 (idx k : ℕ) : ℕ := u32wrap (u32wrap (u32sub1 idx * 3) + k)

/-- Value of `((idx - 1) * 2 + k) as usize` computed in `u32`. -/
def idx2 (idx k : ℕ) : ℕ := u32wrap (u32wrap (u32sub1 idx * 2) + k)

/-- Whitespace as matched by a space in a `scan_fmt!` format string. -/
def isWsChar (c : Char) : Bool := c = ' ' || c = '\t'

/-- Drop a run of whitespace. -/
def skipWs (cs : List Char) : List Char := cs.dropWhile (fun c => isWsChar c)

/-- Match the run of one or more whitespace characters that a space in a
format string stands for, returning the rest of the input. -/
def wsReq : List Char → Option (List Char)
  | [] => none
  | c :: cs => if isWsChar c then some (skipWs cs) else none

/-- Numeric value of the decimal digit `c`. -/
def digitVal (c : Char) : ℕ := c.toNat - 48

/-- Value of a digit string read most significant first. -/
def natOfDigits (ds : List Char) : ℕ := ds.foldl (fun a c => 10 * a + digitVal c) 0

/-- Modelled from the spec: a `{}` capture of a `u32` in the external
`scan_fmt` crate (its source is not part of this repository).  The
capture takes the maximal leading digit run, fails when that run is
empty, and fails when the value does not fit in a `u32` (Rust's
`str::parse::<u32>` rejects it); the remaining input is returned. -/
def parseU32 (cs : List Char) : Option (ℕ × List Char) :=
  let ds := cs.takeWhile (fun c => c.isDigit)
  let rest := cs.dropWhile (fun c => c.isDigit)
  if ds = [] then none
  else if natOfDigits ds < 4294967296 then some (natOfDigits ds, rest) else none

/-- Modelled from the spec: a `{}` capture of an `f32` in the external
`scan_fmt` crate.  The capture takes a maximal leading token of the
shape `[-+]? digits [. digits]` with at least one digit, as produced by
the spec's attribute lines (`exactly 3 floats`, decimal notation); the
exotic `f32` spellings (exponents, `inf`, `NaN`) never appear in the
inputs this development evaluates and are not modelled.  The value is
returned exactly: digits `d₁…dₐ.e₁…e_b` denote
`(d₁…dₐe₁…e_b) / 10 ^ b`, negated under a leading minus. -/
def parseF32 (cs : List Char) : Option (F32 × List Char) :=
  let neg : Bool := cs.head? = some '-'
  let cs1 := if cs.head? = some '-' || cs.head? = some '+' then cs.tail else cs
  let ds1 := cs1.takeWhile (fun c => c.isDigit)
  let r1 := cs1.dropWhile (fun c => c.isDigit)
  match r1 with
  | '.' :: r2 =>
      let ds2 := r2.takeWhile (fun c => c.isDigit)
      let r3 := r2.dropWhile (fun c => c.isDigit)
      if ds1 = [] ∧ ds2 = [] then none
      else
        let man : ℤ := natOfDigits (ds1 ++ ds2)
        some (canonF32 (if neg then -man else man) ds2.length, r3)
  | _ =>
      if ds1 = [] then none
      else
        let man : ℤ := natOfDigits ds1
        some (canonF32 (if neg then -man else man) 0, r1)

/-- Whitespace followed by an `f32` capture: the ` {}` unit of the
attribute-line format strings. -/
def wsF32 (cs : List Char) : Option (F32 × List Char) :=
  (wsReq cs).bind parseF32

/-- Modelled from the spec: `scan_fmt!(line, "v {} {} {}", f32, f32,
f32)` — the vertex-position line grammar `v x y z`.  Leading whitespace
before the literal `v` is tolerated and trailing input is ignored, the
spec's `tolerant formatted-scan`.  The scan yields all three captures or
is treated as failed, mirroring how the caller immediately `unwrap`s
every capture. -/
def scan_v (line : String) : Option (F32 × F32 × F32) :=
  match skipWs line.toList with
  | 'v' :: r =>
      match wsF32 r with
      | some (x, r1) =>
          match wsF32 r1 with
          | some (y, r2) =>
              match wsF32 r2 with
              | some (z, _) => some (x, y, z)
              | none => none
          | none => none
      | none => none
  | _ => none

/-- Modelled from the spec: `scan_fmt!(line, "vt {} {}", f32, f32)` —
the texture-coordinate line grammar `vt s t`. -/
def scan_vt (line : String) : Option (F32 × F32) :=
  match skipWs line.toList with
  | 'v' :: 't' :: r =>
      match wsF32 r with
      | some (s, r1) =>
          match wsF32 r1 with
          | some (t, _) => some (s, t)
          | none => none
      | none => none
  | _ => none

/-- Modelled from the spec: `scan_fmt!(line, "vn {} {} {}", f32, f32,
f32)` — the vertex-normal line grammar `vn x y z`. -/
def scan_vn (line : String) : Option (F32 × F32 × F32) :=
  match skipWs line.toList with
  | 'v' :: 'n' :: r =>
      match wsF32 r with
      | some (x, r1) =>
          match wsF32 r1 with
          | some (y, r2) =>
              match wsF32 r2 with
              | some (z, _) => some (x, y, z)
              | none => none
          | none => none
      | none => none
  | _ => none

/-- One `{}/{}/{}` vertex group of face grammar A: position, texture
and normal indices separated by single slashes. -/
def vtnGroup (cs : List Char) : Option ((ℕ × ℕ × ℕ) × List Char) :=
  match parseU32 cs with
  | some (p, '/' :: r1) =>
      match parseU32 r1 with
      | some (t, '/' :: r2) =>
          match parseU32 r2 with
          | some (n, r3) => some ((p, t, n), r3)
          | none => none
      | _ => none
  | _ => none

/-- One `{}//{}` vertex group of face grammar B: position and normal
indices separated by a double slash. -/
def vnGroup (cs : List Char) : Option ((ℕ × ℕ) × List Char) :=
  match parseU32 cs with
  | some (p, '/' :: '/' :: r1) =>
      match parseU32 r1 with
      | some (n, r2) => some ((p, n), r2)
      | none => none
  | _ => none

/-- Modelled from the spec: `scan_fmt!(line, "f {}/{}/{} {}/{}/{}
{}/{}/{}", u32, ..)` — face grammar A, `f p0/t0/n0 p1/t1/n1 p2/t2/n2`.
The scan yields all nine captures or fails, which is what the
`is_valid_vtn_triple` gate in the source checks before any capture is
`unwrap`ped. -/
def scan_f_vtn (line : String) : Option ((ℕ × ℕ × ℕ) × (ℕ × ℕ × ℕ) × (ℕ × ℕ × ℕ)) :=
  match skipWs line.toList with
  | 'f' :: r =>
      match (wsReq r).bind vtnGroup with
      | some (v0, r1) =>
          match (wsReq r1).bind vtnGroup with
          | some (v1, r2) =>
              match (wsReq r2).bind vtnGroup with
              | some (v2, _) => some (v0, v1, v2)
              | none => none
          | none => none
      | none => none
  | _ => none

/-- Modelled from the spec: `scan_fmt!(line, "f {}//{} {}//{} {}//{}",
u32, ..)` — face grammar B, `f p0//n0 p1//n1 p2//n2`.  The scan yields
all six captures or fails, which is what the `is_valid_vn_triple` gate
in the source checks before any capture is `unwrap`ped. -/
def scan_f_vn (line : String) : Option ((ℕ × ℕ) × (ℕ × ℕ) × (ℕ × ℕ)) :=
  match skipWs line.toList with
  | 'f' :: r =>
      match (wsReq r).bind vnGroup with
      | some (v0, r1) =>
          match (wsReq r1).bind vnGroup with
          | some (v1, r2) =>
              match (wsReq r2).bind vnGroup with
              | some (v2, _) => some (v0, v1, v2)
              | none => none
          | none => none
      | none => none
  | _ => none

/-- Model-space mesh produced by the loader (`pub struct ObjMesh`). -/
structure ObjMesh where
  point_count : ℕ
  points : List F32
  tex_coords : List F32
  normals : List F32
deriving DecidableEq

/-- Constructor `ObjMesh::new`: `point_count` is derived as
`points.len() / 3`. -/
def ObjMesh.new (points tex_coords normals : List F32) : ObjMesh :=
  { point_count := points.length / 3
    points := points
    tex_coords := tex_coords
    normals := normals }

/-- Per-declaration attribute store (`struct UnsortedVertexData`). -/
structure UnsortedVertexData where
  vp : List F32
  vt : List F32
  vn : List F32
deriving DecidableEq

/-- Expanded output buffers (`struct SortedVertexData`). -/
structure SortedVertexData where
  points : List F32
  tex_coords : List F32
  normals : List F32
deriving DecidableEq

/-- Nonnegative count of leading bytes that the `skip_spaces` loop
steps over: it advances over `b' '` and `b'\\'` while `index <
bytes.len() - 1`, so it never steps past the last byte.  The source's
index loop is rendered as structural recursion on the byte list; the
returned number is the loop's final `index`. -/
def skipCount : List Char → ℕ
  | [] => 0
  | [_] => 0
  | c :: d :: tl => if c = ' ' ∨ c = '\\' then skipCount (d :: tl) + 1 else 0

/-- Function `skip_spaces`.  On an empty line `bytes.len() - 1`
underflows: a debug build panics on the subtraction, a release build
wraps and panics on `bytes[0]`; either way the call panics, modelled by
the `panic` result. -/
def skip_spaces (bytes : List Char) : RustRes ℕ :=
  if bytes.isEmpty then .panic msgSkipSpacesUnderflow else .ok (skipCount bytes)

/-- A `BufRead + Seek` reader over line-oriented text: the lines of the
underlying content plus the cursor position, counted in lines.
`reader.lines()` yields the lines from `pos` on (Rust strips the line
terminators, so terminators do not appear here), and
`seek(SeekFrom::Start(0))` resets `pos` to `0`. -/
structure Reader where
  lines : List String
  pos : ℕ
deriving DecidableEq

/-- Tally of one line by the `count_vertices` loop body: `bytes[i]` for
`i = skip_spaces(bytes)` dispatches on `v` (then on `bytes[i + 1]`,
which panics when the line ends at `i`) and `f`; every other leading
byte is ignored. -/
def countLine (c : ℕ × ℕ × ℕ × ℕ) (line : String) : RustRes (ℕ × ℕ × ℕ × ℕ) :=
  let bytes := line.toList
  match skip_spaces bytes with
  | .panic m => .panic m
  | .err e => .err e
  | .ok i =>
      if bytes.getD i ' ' = 'v' then
        if i + 1 < bytes.length then
          if bytes.getD (i + 1) ' ' = ' ' then .ok (c.1 + 1, c.2.1, c.2.2.1, c.2.2.2)
          else if bytes.getD (i + 1) ' ' = 't' then .ok (c.1, c.2.1 + 1, c.2.2.1, c.2.2.2)
          else if bytes.getD (i + 1) ' ' = 'n' then .ok (c.1, c.2.1, c.2.2.1 + 1, c.2.2.2)
          else .ok c
        else .panic msgIndexOutOfBounds
      else if bytes.getD i ' ' = 'f' then .ok (c.1, c.2.1, c.2.2.1, c.2.2.2 + 1)
      else .ok c

/-- Loop of `count_vertices` over the remaining lines. -/
def countLines : List String → (ℕ × ℕ × ℕ × ℕ) → RustRes (ℕ × ℕ × ℕ × ℕ)
  | [], c => .ok c
  | l :: ls, c =>
      match countLine c l with
      | .ok c' => countLines ls c'
      | .err e => .err e
      | .panic m => .panic m

/-- Function `count_vertices`: tallies `(vp, vt, vn, face)` line counts
from the reader's position to the end of the stream, then rewinds the
reader with `seek(SeekFrom::Start(0))` and returns it at position 0. -/
def count_vertices (reader : Reader) : RustRes ((ℕ × ℕ × ℕ × ℕ) × Reader) :=
  match countLines (reader.lines.drop reader.pos) (0, 0, 0, 0) with
  | .ok c => .ok (c, { lines := reader.lines, pos := 0 })
  | .err e => .err e
  | .panic m => .panic m

/-- Index guard of `parse_vtn` for one vertex group, in source order:
`vp[j] - 1 >= vp.len()`, then `vt[j] - 1 >= vt.len()`, then `vn[j] - 1
>= vn.len()`, each comparison against the length of the flattened
attribute array and each subtraction performed on `u32`. -/
def checkVtn (u : UnsortedVertexData) (v : ℕ × ℕ × ℕ) : Option LoadError :=
  if u.vp.length ≤ u32sub1 v.1 then some .vpIndexVtn
  else if u.vt.length ≤ u32sub1 v.2.1 then some (.vtIndexVtn v.2.1)
  else if u.vn.length ≤ u32sub1 v.2.2 then some .vnIndexVtn
  else none

/-- Push loop body of `parse_vtn` for one vertex group `j`: reads the
three position components, two texture components and three normal
components at the `u32` offsets `(idx - 1) * span + k` and appends them
to the output buffers, in source push order. -/
def pushVtn (u : UnsortedVertexData) (v : ℕ × ℕ × ℕ) (s : SortedVertexData) :
    RustRes SortedVertexData :=
  RustRes.bind (vecGet u.vp (idx3 v.1 0)) fun a =>
  RustRes.bind (vecGet u.vp (idx3 v.1 1)) fun b =>
  RustRes.bind (vecGet u.vp (idx3 v.1 2)) fun c =>
  RustRes.bind (vecGet u.vt (idx2 v.2.1 0)) fun d =>
  RustRes.bind (vecGet u.vt (idx2 v.2.1 1)) fun e =>
  RustRes.bind (vecGet u.vn (idx3 v.2.2 0)) fun x =>
  RustRes.bind (vecGet u.vn (idx3 v.2.2 1)) fun y =>
  RustRes.bind (vecGet u.vn (idx3 v.2.2 2)) fun z =>
  .ok { points := s.points ++ [a, b, c]
        tex_coords := s.tex_coords ++ [d, e]
        normals := s.normals ++ [x, y, z] }

/-- Function `parse_vtn`: scan the line under face grammar A, reject
when not all nine captures parse, run the index guard over all three
vertex groups, then append the three expanded vertices. -/
def parse_vtn (line : String) (u : UnsortedVertexData) (s : SortedVertexData) :
    RustRes SortedVertexData :=
  match scan_f_vtn line with
  | none => .err (.faceDeclVtn line)
  | some (v0, v1, v2) =>
      match checkVtn u v0 with
      | some e => .err e
      | none =>
          match checkVtn u v1 with
          | some e => .err e
          | none =>
              match checkVtn u v2 with
              | some e => .err e
              | none =>
                  RustRes.bind (pushVtn u v0 s) fun s1 =>
                  RustRes.bind (pushVtn u v1 s1) fun s2 =>
                  pushVtn u v2 s2

/-- Index guard of `parse_vn` for one vertex group, in source order:
`vp[j] - 1 >= vp.len()`, then `vn[j] - 1 >= vn.len()`. -/
def checkVn (u : UnsortedVertexData) (v : ℕ × ℕ) : Option LoadError :=
  if u.vp.length ≤ u32sub1 v.1 then some .vpIndexVn
  else if u.vn.length ≤ u32sub1 v.2 then some .vnIndexVn
  else none

/-- Push loop body of `parse_vn` for one vertex group `j`: three
position components and three normal components, no texture
coordinates. -/
def pushVn (u : UnsortedVertexData) (v : ℕ × ℕ) (s : SortedVertexData) :
    RustRes SortedVertexData :=
  RustRes.bind (vecGet u.vp (idx3 v.1 0)) fun a =>
  RustRes.bind (vecGet u.vp (idx3 v.1 1)) fun b =>
  RustRes.bind (vecGet u.vp (idx3 v.1 2)) fun c =>
  RustRes.bind (vecGet u.vn (idx3 v.2 0)) fun x =>
  RustRes.bind (vecGet u.vn (idx3 v.2 1)) fun y =>
  RustRes.bind (vecGet u.vn (idx3 v.2 2)) fun z =>
  .ok { points := s.points ++ [a, b, c]
        tex_coords := s.tex_coords
        normals := s.normals ++ [x, y, z] }

/-- Function `parse_vn`: scan the line under face grammar B, reject
when not all six captures parse, run the index guard over all three
vertex groups, then append the three expanded vertices. -/
def parse_vn (line : String) (u : UnsortedVertexData) (s : SortedVertexData) :
    RustRes SortedVertexData :=
  match scan_f_vn line with
  | none => .err (.faceDeclVn line)
  | some (v0, v1, v2) =>
      match checkVn u v0 with
      | some e => .err e
      | none =>
          match checkVn u v1 with
          | some e => .err e
          | none =>
              match checkVn u v2 with
              | some e => .err e
              | none =>
                  RustRes.bind (pushVn u v0 s) fun s1 =>
                  RustRes.bind (pushVn u v1 s1) fun s2 =>
                  pushVn u v2 s2

/-- Mutable locals of the `load_obj_mesh` main loop: the attribute
store, the three write cursors `current_unsorted_vp/vt/vn`, and the
output buffers. -/
structure LoadState where
  unsorted : UnsortedVertexData
  current_unsorted_vp : ℕ
  current_unsorted_vt : ℕ
  current_unsorted_vn : ℕ
  sorted : SortedVertexData
deriving DecidableEq

/-- Vertex-point branch of the main loop (`bytes[i + 1] == b' '`):
scan the line as `v x y z` — each capture is `unwrap`ped, so a failed
scan panics — and write the three fields at the `current_unsorted_vp`
cursor, then advance the cursor. -/
def vPointStep (s : LoadState) (line : String) : RustRes LoadState :=
  match scan_v line with
  | none => .panic msgUnwrapNone
  | some (x, y, z) =>
      RustRes.bind (vecSet s.unsorted.vp (s.current_unsorted_vp * 3) x) fun vp1 =>
      RustRes.bind (vecSet vp1 (s.current_unsorted_vp * 3 + 1) y) fun vp2 =>
      RustRes.bind (vecSet vp2 (s.current_unsorted_vp * 3 + 2) z) fun vp3 =>
      .ok { s with unsorted := { s.unsorted with vp := vp3 }
                   current_unsorted_vp := s.current_unsorted_vp + 1 }

/-- Texture-coordinate branch of the main loop (`bytes[i + 1] == b't'`):
scan the line as `vt s t` and write the two fields at the
`current_unsorted_vt` cursor. -/
def vTexStep (s : LoadState) (line : String) : RustRes LoadState :=
  match scan_vt line with
  | none => .panic msgUnwrapNone
  | some (a, b) =>
      RustRes.bind (vecSet s.unsorted.vt (s.current_unsorted_vt * 2) a) fun vt1 =>
      RustRes.bind (vecSet vt1 (s.current_unsorted_vt * 2 + 1) b) fun vt2 =>
      .ok { s with unsorted := { s.unsorted with vt := vt2 }
                   current_unsorted_vt := s.current_unsorted_vt + 1 }

/-- Vertex-normal branch of the main loop (`bytes[i + 1] == b'n'`):
scan the line as `vn x y z` and write the three fields at the
`current_unsorted_vn` cursor. -/
def vNormStep (s : LoadState) (line : String) : RustRes LoadState :=
  match scan_vn line with
  | none => .panic msgUnwrapNone
  | some (x, y, z) =>
      RustRes.bind (vecSet s.unsorted.vn (s.current_unsorted_vn * 3) x) fun vn1 =>
      RustRes.bind (vecSet vn1 (s.current_unsorted_vn * 3 + 1) y) fun vn2 =>
      RustRes.bind (vecSet vn2 (s.current_unsorted_vn * 3 + 2) z) fun vn3 =>
      .ok { s with unsorted := { s.unsorted with vn := vn3 }
                   current_unsorted_vn := s.current_unsorted_vn + 1 }

/-- Face branch of the main loop (`bytes[i] == b'f'`): count the
slashes from `i` to the end of the line first, rejecting any count
other than 6 before any numeric parsing; then try grammar A via
`parse_vtn`, fall back to grammar B via `parse_vn` when A returned an
error, and report the malformed-face error only when both returned
errors.  A panic inside either parse propagates. -/
def faceStep (s : LoadState) (line : String) (i : ℕ) : RustRes LoadState :=
  if (line.toList.drop i).count '/' ≠ 6 then .err .unsupportedTopology
  else
    match parse_vtn line s.unsorted s.sorted with
    | .ok sorted1 => .ok { s with sorted := sorted1 }
    | .panic m => .panic m
    | .err _ =>
        match parse_vn line s.unsorted s.sorted with
        | .ok sorted1 => .ok { s with sorted := sorted1 }
        | .panic m => .panic m
        | .err _ => .err (.malformedFaceLine line)

/-- Body of the `load_obj_mesh` main loop for one line, dispatching on
`bytes[i]` for `i = skip_spaces(bytes)` exactly as the second pass
does (`v` then `bytes[i + 1]`, which panics when the line ends at `i`;
otherwise `f`; every other lead byte is ignored). -/
def loadStep (s : LoadState) (line : String) : RustRes LoadState :=
  let bytes := line.toList
  match skip_spaces bytes with
  | .panic m => .panic m
  | .err e => .err e
  | .ok i =>
      if bytes.getD i ' ' = 'v' then
        if i + 1 < bytes.length then
          if bytes.getD (i + 1) ' ' = ' ' then vPointStep s line
          else if bytes.getD (i + 1) ' ' = 't' then vTexStep s line
          else if bytes.getD (i + 1) ' ' = 'n' then vNormStep s line
          else .ok s
        else .panic msgIndexOutOfBounds
      else if bytes.getD i ' ' = 'f' then faceStep s line i
      else .ok s

/-- The `load_obj_mesh` main loop over the remaining lines. -/
def runLines : List String → LoadState → RustRes LoadState
  | [], s => .ok s
  | l :: ls, s =>
      match loadStep s l with
      | .ok s' => runLines ls s'
      | .err e => .err e
      | .panic m => .panic m

/-- Function `load_obj_mesh`: the counting pass sizes and zero-fills
the attribute store (`vec![0.0; 3 * n]` patterns), the reader is left
rewound, the main loop consumes every line, and the output buffers are
wrapped by `ObjMesh::new`. -/
def load_obj_mesh (reader : Reader) : RustRes ObjMesh :=
  match count_vertices reader with
  | .err e => .err e
  | .panic m => .panic m
  | .ok ((vpc, vtc, vnc, _), r1) =>
      let init : LoadState :=
        { unsorted :=
            { vp := List.replicate (3 * vpc) (F32.ofInt 0)
              vt := List.replicate (2 * vtc) (F32.ofInt 0)
              vn := List.replicate (3 * vnc) (F32.ofInt 0) }
          current_unsorted_vp := 0
          current_unsorted_vt := 0
          current_unsorted_vn := 0
          sorted := { points := [], tex_coords := [], normals := [] } }
      match runLines (r1.lines.drop r1.pos) init with
      | .ok s => .ok (ObjMesh.new s.sorted.points s.sorted.tex_coords s.sorted.normals)
      | .err e => .err e
      | .panic m => .panic m

/-- Function `load_obj_file` on the lines of an already-opened file:
a fresh reader positioned at the start is handed to `load_obj_mesh`.
The `File::open` failure path concerns the filesystem, not the parse,
and is not modelled. -/
def load_obj_file (contentLines : List String) : RustRes ObjMesh :=
  load_obj_mesh { lines := contentLines, pos := 0 }

/-- Unit-cube fixture text from `parser_tests::test`, the raw string
`obj_file` transcribed line by line (`BufRead::lines` over a
`Cursor` yields exactly these lines, terminators stripped): 8 `v`
lines, 6 `vn` lines, 12 triangular `f` lines in the `p//n` grammar,
with `o`/`g` lines, all-blank padding lines, and a trailing `\\` on
every interior line. -/
def cubeFixture : List String :=
  [ "        \\"
  , "            o object1                         \\"
  , "            g cube                            \\"
  , "            v  0.0  0.0  0.0                  \\"
  , "            v  0.0  0.0  1.0                  \\"
  , "            v  0.0  1.0  0.0                  \\"
  , "            v  0.0  1.0  1.0                  \\"
  , "            v  1.0  0.0  0.0                  \\"
  , "            v  1.0  0.0  1.0                  \\"
  , "            v  1.0  1.0  0.0                  \\"
  , "            v  1.0  1.0  1.0                  \\"
  , "                                              \\"
  , "            vn  0.0  0.0  1.0                 \\"
  , "            vn  0.0  0.0 -1.0                 \\"
  , "            vn  0.0  1.0  0.0                 \\"
  , "            vn  0.0 -1.0  0.0                 \\"
  , "            vn  1.0  0.0  0.0                 \\"
  , "            vn -1.0  0.0  0.0                 \\"
  , "                                              \\"
  , "            f  1//2  7//2  5//2               \\"
  , "            f  1//2  3//2  7//2               \\"
  , "            f  1//6  4//6  3//6               \\"
  , "            f  1//6  2//6  4//6               \\"
  , "            f  3//3  8//3  7//3               \\"
  , "            f  3//3  4//3  8//3               \\"
  , "            f  5//5  7//5  8//5               \\"
  , "            f  5//5  8//5  6//5               \\"
  , "            f  1//4  5//4  6//4               \\"
  , "            f  1//4  6//4  2//4               \\"
  , "            f  2//1  6//1  8//1               \\"
  , "            f  2//1  8//1  4//1               \\"
  , "        "
  ]

/-- Expected `points` sequence from `parser_tests::test` (the `f32`
literals of the fixture are integral, transcribed via `F32.ofInt`). -/
def cubePoints : List F32 :=
  List.map F32.ofInt
  [ 0, 0, 0, 1, 1, 0, 1, 0, 0,
    0, 0, 0, 0, 1, 0, 1, 1, 0,
    0, 0, 0, 0, 1, 1, 0, 1, 0,
    0, 0, 0, 0, 0, 1, 0, 1, 1,
    0, 1, 0, 1, 1, 1, 1, 1, 0,
    0, 1, 0, 0, 1, 1, 1, 1, 1,
    1, 0, 0, 1, 1, 0, 1, 1, 1,
    1, 0, 0, 1, 1, 1, 1, 0, 1,
    0, 0, 0, 1, 0, 0, 1, 0, 1,
    0, 0, 0, 1, 0, 1, 0, 0, 1,
    0, 0, 1, 1, 0, 1, 1, 1, 1,
    0, 0, 1, 1, 1, 1, 0, 1, 1 ]

/-- Expected `normals` sequence from `parser_tests::test`. -/
def cubeNormals : List F32 :=
  List.map F32.ofInt
  [ 0, 0, -1, 0, 0, -1, 0, 0, -1,
    0, 0, -1, 0, 0, -1, 0, 0, -1,
    -1, 0, 0, -1, 0, 0, -1, 0, 0,
    -1, 0, 0, -1, 0, 0, -1, 0, 0,
    0, 1, 0, 0, 1, 0, 0, 1, 0,
    0, 1, 0, 0, 1, 0, 0, 1, 0,
    1, 0, 0, 1, 0, 0, 1, 0, 0,
    1, 0, 0, 1, 0, 0, 1, 0, 0,
    0, -1, 0, 0, -1, 0, 0, -1, 0,
    0, -1, 0, 0, -1, 0, 0, -1, 0,
    0, 0, 1, 0, 0, 1, 0, 0, 1,
    0, 0, 1, 0, 0, 1, 0, 0, 1 ]

/-- Expected mesh from `parser_tests::test`: `point_count == 36`,
empty `tex_coords`, and the literal `points`/`normals` sequences. -/
def cubeMesh : ObjMesh :=
  { point_count := 36
    points := cubePoints
    tex_coords := []
    normals := cubeNormals }

/-- Face line of `mixedFixture` written in grammar A. -/
def lineA : String := "f 1/1/1 1/1/1 1/1/1"

/-- Face line of `mixedFixture` written in grammar B. -/
def lineB : String := "f 1//1 1//1 1//1"

/-- Input mixing the two face grammars across face lines: one
`p/t/n` face and one `p//n` face over a single position, texture
coordinate and normal. -/
def mixedFixture : List String :=
  [ "v 0.0 0.0 0.0"
  , "vt 0.0 0.0"
  , "vn 0.0 0.0 1.0"
  , lineA
  , lineB
  ]

/-- Mesh the loader produces for `mixedFixture`: six vertices, but only
the three grammar-A vertices carry texture coordinates. -/
def mixedMesh : ObjMesh :=
  { point_count := 6
    points := List.replicate 18 (F32.ofInt 0)
    tex_coords := List.replicate 6 (F32.ofInt 0)
    normals := List.map F32.ofInt [0, 0, 1, 0, 0, 1, 0, 0, 1, 0, 0, 1, 0, 0, 1, 0, 0, 1] }

/-- Input whose single face uses grammar A only. -/
def fileA : List String :=
  [ "v 0.0 0.0 0.0"
  , "vt 0.0 0.0"
  , "vn 0.0 0.0 1.0"
  , lineA
  ]

/-- Mesh the loader produces for `fileA`. -/
def fileAMesh : ObjMesh :=
  { point_count := 3
    points := List.replicate 9 (F32.ofInt 0)
    tex_coords := List.replicate 6 (F32.ofInt 0)
    normals := List.map F32.ofInt [0, 0, 1, 0, 0, 1, 0, 0, 1] }

/-- Input whose single face uses grammar B only. -/
def fileB : List String :=
  [ "v 0.0 0.0 0.0"
  , "vn 0.0 0.0 1.0"
  , lineB
  ]

/-- Mesh the loader produces for `fileB`. -/
def fileBMesh : ObjMesh :=
  { point_count := 3
    points := List.replicate 9 (F32.ofInt 0)
    tex_coords := []
    normals := List.map F32.ofInt [0, 0, 1, 0, 0, 1, 0, 0, 1] }

/-- Face line referencing position index 2 when only 1 position is
declared: `2 - 1 = 1` is below the flattened length `3`, so the guard
in `parse_vn` passes and the push indexes `vp[3]` out of bounds. -/
def lineIdx2 : String := "f 2//1 1//1 1//1"

/-- Input for `lineIdx2`: one declared position, one declared normal. -/
def fileIdx2 : List String :=
  [ "v 0.0 0.0 0.0"
  , "vn 0.0 0.0 1.0"
  , lineIdx2
  ]

/-- Face line referencing position index 0. -/
def lineIdx0 : String := "f 0//1 1//1 1//1"

/-- Input for `lineIdx0`: one declared position, one declared normal. -/
def fileIdx0 : List String :=
  [ "v 0.0 0.0 0.0"
  , "vn 0.0 0.0 1.0"
  , lineIdx0
  ]

/-- A `v` line whose numeric fields do not parse. -/
def fileBadV : List String := ["v foo bar baz"]

/-- Input consisting of one blank (empty) line. -/
def fileBlank : List String := [""]

/-- Quad face line: 8 slashes. -/
def lineQuad : String := "f 1/1/1 2/2/2 3/3/3 4/4/4"

/-- Loop state over one declared position and one declared normal,
as the second pass holds it when a face line is reached. -/
def stateBN : LoadState :=
  { unsorted :=
      { vp := List.replicate 3 (F32.ofInt 0)
        vt := []
        vn := List.map F32.ofInt [0, 0, 1] }
    current_unsorted_vp := 1
    current_unsorted_vt := 0
    current_unsorted_vn := 1
    sorted := { points := [], tex_coords := [], normals := [] } }

/-- Output buffers after expanding `lineB` from `stateBN`. -/
def sortedBN : SortedVertexData :=
  { points := List.replicate 9 (F32.ofInt 0)
    tex_coords := []
    normals := List.map F32.ofInt [0, 0, 1, 0, 0, 1, 0, 0, 1] }

/-- Face-line classification of the two passes: `skip_spaces` lands on a
byte equal to `b'f'` (`b'v'` is tested first, and `'f'` is not `'v'`,
so such a line reaches the face branch). -/
def isFaceLine (l : String) : Bool :=
  match skip_spaces l.toList with
  | .ok i => decide (l.toList.getD i ' ' = 'f')
  | _ => false

theorem pushVtn_ok_lengths {u : UnsortedVertexData} {v : ℕ × ℕ × ℕ}
    {s s' : SortedVertexData} (h : pushVtn u v s = .ok s') :
    s'.points.length = s.points.length + 3 ∧
    s'.tex_coords.length = s.tex_coords.length + 2 ∧
    s'.normals.length = s.normals.length + 3 := by
  obtain ⟨a, -, h⟩ := RustRes.bind_eq_ok h
  obtain ⟨b, -, h⟩ := RustRes.bind_eq_ok h
  obtain ⟨c, -, h⟩ := RustRes.bind_eq_ok h
  obtain ⟨d, -, h⟩ := RustRes.bind_eq_ok h
  obtain ⟨e, -, h⟩ := RustRes.bind_eq_ok h
  obtain ⟨x, -, h⟩ := RustRes.bind_eq_ok h
  obtain ⟨y, -, h⟩ := RustRes.bind_eq_ok h
  obtain ⟨z, -, h⟩ := RustRes.bind_eq_ok h
  injection h with h
  rw [← h]
  simp

theorem pushVn_ok_lengths {u : UnsortedVertexData} {v : ℕ × ℕ}
    {s s' : SortedVertexData} (h : pushVn u v s = .ok s') :
    s'.points.length = s.points.length + 3 ∧
    s'.tex_coords = s.tex_coords ∧
    s'.normals.length = s.normals.length + 3 := by
  obtain ⟨a, -, h⟩ := RustRes.bind_eq_ok h
  obtain ⟨b, -, h⟩ := RustRes.bind_eq_ok h
  obtain ⟨c, -, h⟩ := RustRes.bind_eq_ok h
  obtain ⟨x, -, h⟩ := RustRes.bind_eq_ok h
  obtain ⟨y, -, h⟩ := RustRes.bind_eq_ok h
  obtain ⟨z, -, h⟩ := RustRes.bind_eq_ok h
  injection h with h
  rw [← h]
  simp

theorem parse_vtn_ok_lengths {line : String} {u : UnsortedVertexData}
    {s s' : SortedVertexData} (h : parse_vtn line u s = .ok s') :
    s'.points.length = s.points.length + 9 ∧
    s'.tex_coords.length = s.tex_coords.length + 6 ∧
    s'.normals.length = s.normals.length + 9 := by
  unfold parse_vtn at h
  split at h
  · simp at h
  · split at h
    · simp at h
    · split at h
      · simp at h
      · split at h
        · simp at h
        · obtain ⟨s1, h1, h⟩ := RustRes.bind_eq_ok h
          obtain ⟨s2, h2, h3⟩ := RustRes.bind_eq_ok h
          obtain ⟨p1, t1, n1⟩ := pushVtn_ok_lengths h1
          obtain ⟨p2, t2, n2⟩ := pushVtn_ok_lengths h2
          obtain ⟨p3, t3, n3⟩ := pushVtn_ok_lengths h3
          omega

theorem parse_vn_ok_lengths {line : String} {u : UnsortedVertexData}
    {s s' : SortedVertexData} (h : parse_vn line u s = .ok s') :
    s'.points.length = s.points.length + 9 ∧
    s'.tex_coords = s.tex_coords ∧
    s'.normals.length = s.normals.length + 9 := by
  unfold parse_vn at h
  split at h
  · simp at h
  · split at h
    · simp at h
    · split at h
      · simp at h
      · split at h
        · simp at h
        · obtain ⟨s1, h1, h⟩ := RustRes.bind_eq_ok h
          obtain ⟨s2, h2, h3⟩ := RustRes.bind_eq_ok h
          obtain ⟨p1, t1, n1⟩ := pushVn_ok_lengths h1
          obtain ⟨p2, t2, n2⟩ := pushVn_ok_lengths h2
          obtain ⟨p3, t3, n3⟩ := pushVn_ok_lengths h3
          refine ⟨by omega, ?_, by omega⟩
          rw [t3, t2, t1]

theorem parse_vtn_ok_scan {line : String} {u : UnsortedVertexData}
    {s s' : SortedVertexData} (h : parse_vtn line u s = .ok s') :
    scan_f_vtn line ≠ none := by
  intro hnone
  unfold parse_vtn at h
  rw [hnone] at h
  simp at h

theorem parse_vn_ok_scan {line : String} {u : UnsortedVertexData}
    {s s' : SortedVertexData} (h : parse_vn line u s = .ok s') :
    scan_f_vn line ≠ none := by
  intro hnone
  unfold parse_vn at h
  rw [hnone] at h
  simp at h

theorem vPointStep_ok_sorted {s : LoadState} {line : String} {s' : LoadState}
    (h : vPointStep s line = .ok s') : s'.sorted = s.sorted := by
  unfold vPointStep at h
  split at h
  · simp at h
  · obtain ⟨v1, -, h⟩ := RustRes.bind_eq_ok h
    obtain ⟨v2, -, h⟩ := RustRes.bind_eq_ok h
    obtain ⟨v3, -, h⟩ := RustRes.bind_eq_ok h
    injection h with h
    rw [← h]

theorem vTexStep_ok_sorted {s : LoadState} {line : String} {s' : LoadState}
    (h : vTexStep s line = .ok s') : s'.sorted = s.sorted := by
  unfold vTexStep at h
  split at h
  · simp at h
  · obtain ⟨v1, -, h⟩ := RustRes.bind_eq_ok h
    obtain ⟨v2, -, h⟩ := RustRes.bind_eq_ok h
    injection h with h
    rw [← h]

theorem vNormStep_ok_sorted {s : LoadState} {line : String} {s' : LoadState}
    (h : vNormStep s line = .ok s') : s'.sorted = s.sorted := by
  unfold vNormStep at h
  split at h
  · simp at h
  · obtain ⟨v1, -, h⟩ := RustRes.bind_eq_ok h
    obtain ⟨v2, -, h⟩ := RustRes.bind_eq_ok h
    obtain ⟨v3, -, h⟩ := RustRes.bind_eq_ok h
    injection h with h
    rw [← h]

theorem faceStep_ok_cases {s : LoadState} {line : String} {i : ℕ} {s' : LoadState}
    (h : faceStep s line i = .ok s') :
    parse_vtn line s.unsorted s.sorted = .ok s'.sorted ∨
      ((∃ e, parse_vtn line s.unsorted s.sorted = .err e) ∧
        parse_vn line s.unsorted s.sorted = .ok s'.sorted) := by
  unfold faceStep at h
  split at h
  · simp at h
  · split at h
    case _ s1 hA =>
      injection h with h
      left
      rw [← h]
      exact hA
    case _ m hm => simp at h
    case _ e he =>
      split at h
      case _ s1 hB =>
        injection h with h
        right
        exact ⟨⟨e, he⟩, by rw [← h]; exact hB⟩
      case _ m hm => simp at h
      case _ e2 he2 => simp at h

theorem loadStep_ok_cases {s : LoadState} {l : String} {s' : LoadState}
    (h : loadStep s l = .ok s') :
    s'.sorted = s.sorted ∨
    (isFaceLine l = true ∧
      (parse_vtn l s.unsorted s.sorted = .ok s'.sorted ∨
        ((∃ e, parse_vtn l s.unsorted s.sorted = .err e) ∧
          parse_vn l s.unsorted s.sorted = .ok s'.sorted))) := by
  unfold loadStep at h
  dsimp only at h
  split at h
  · simp at h
  · simp at h
  case _ i heq =>
    split at h
    · split at h
      · split at h
        · exact .inl (vPointStep_ok_sorted h)
        · split at h
          · exact .inl (vTexStep_ok_sorted h)
          · split at h
            · exact .inl (vNormStep_ok_sorted h)
            · injection h with h
              rw [← h]
              exact .inl rfl
      · simp at h
    · split at h
      case _ hf =>
        have hface : isFaceLine l = true := by
          unfold isFaceLine
          rw [heq]
          simpa using hf
        exact .inr ⟨hface, faceStep_ok_cases h⟩
      · injection h with h
        rw [← h]
        exact .inl rfl

theorem runLines_inv (P : SortedVertexData → Prop) :
    ∀ (ls : List String) (s s' : LoadState),
      (∀ s0 l s1, l ∈ ls → loadStep s0 l = .ok s1 → P s0.sorted → P s1.sorted) →
      runLines ls s = .ok s' → P s.sorted → P s'.sorted := by
  intro ls
  induction ls with
  | nil =>
      intro s s' _ h hP
      unfold runLines at h
      injection h with h
      rw [← h]
      exact hP
  | cons l ls ih =>
      intro s s' hstep h hP
      unfold runLines at h
      split at h
      case _ s1 h1 =>
        exact ih s1 s' (fun s0 l2 s2 hmem => hstep s0 l2 s2 (List.mem_cons_of_mem l hmem))
          h (hstep s l s1 (List.mem_cons_self l ls) h1 hP)
      · simp at h
      · simp at h

theorem count_vertices_ok_reader {r : Reader} {c : ℕ × ℕ × ℕ × ℕ} {r1 : Reader}
    (h : count_vertices r = .ok (c, r1)) : r1 = { lines := r.lines, pos := 0 } := by
  unfold count_vertices at h
  split at h
  · injection h with h
    exact (Prod.mk.injEq .. ▸ h).2.symm
  · simp at h
  · simp at h

theorem load_obj_file_ok_elim {content : List String} {m : ObjMesh}
    (h : load_obj_file content = .ok m) :
    ∃ (s0 st : LoadState),
      s0.sorted = { points := [], tex_coords := [], normals := [] } ∧
      runLines content s0 = .ok st ∧
      m = ObjMesh.new st.sorted.points st.sorted.tex_coords st.sorted.normals := by
  unfold load_obj_file load_obj_mesh at h
  cases hc : count_vertices { lines := content, pos := 0 } with
  | err e => rw [hc] at h; simp at h
  | panic mm => rw [hc] at h; simp at h
  | ok val =>
      obtain ⟨⟨vpc, vtc, vnc, fc⟩, r1⟩ := val
      have hr : r1 = { lines := content, pos := 0 } := count_vertices_ok_reader hc
      subst hr
      rw [hc] at h
      dsimp only at h
      rw [List.drop_zero] at h
      split at h
      case _ st hrl =>
        injection h with h
        exact ⟨_, st, rfl, hrl, h.symm⟩
      · simp at h
      · simp at h

theorem load_lengths_inv {content : List String} {m : ObjMesh}
    (h : load_obj_file content = .ok m) :
    m.points.length = 3 * m.point_count ∧ m.normals.length = m.points.length := by
  obtain ⟨s0, st, hs0, hrun, hm⟩ := load_obj_file_ok_elim h
  have hstep : ∀ sa l sb, l ∈ content → loadStep sa l = .ok sb →
      (sa.sorted.points.length = sa.sorted.normals.length ∧
        sa.sorted.points.length % 3 = 0) →
      (sb.sorted.points.length = sb.sorted.normals.length ∧
        sb.sorted.points.length % 3 = 0) := by
    intro sa l sb _ hl hPa
    rcases loadStep_ok_cases hl with hsame | ⟨-, hA | ⟨-, hB⟩⟩
    · rw [hsame]; exact hPa
    · obtain ⟨p, t, n⟩ := parse_vtn_ok_lengths hA
      omega
    · obtain ⟨p, t, n⟩ := parse_vn_ok_lengths hB
      omega
  have hP := runLines_inv
    (fun sd => sd.points.length = sd.normals.length ∧ sd.points.length % 3 = 0)
    content s0 st hstep hrun (by rw [hs0]; exact ⟨rfl, rfl⟩)
  rw [hm]
  unfold ObjMesh.new
  dsimp
  omega

theorem load_texA {content : List String} {m : ObjMesh}
    (h : load_obj_file content = .ok m)
    (hA : ∀ l ∈ content, isFaceLine l = true → scan_f_vn l = none) :
    3 * m.tex_coords.length = 2 * m.points.length := by
  obtain ⟨s0, st, hs0, hrun, hm⟩ := load_obj_file_ok_elim h
  have hstep : ∀ sa l sb, l ∈ content → loadStep sa l = .ok sb →
      3 * sa.sorted.tex_coords.length = 2 * sa.sorted.points.length →
      3 * sb.sorted.tex_coords.length = 2 * sb.sorted.points.length := by
    intro sa l sb hmem hl hPa
    rcases loadStep_ok_cases hl with hsame | ⟨hface, hA1 | ⟨-, hB⟩⟩
    · rw [hsame]; exact hPa
    · obtain ⟨p, t, n⟩ := parse_vtn_ok_lengths hA1
      omega
    · exact absurd (hA l hmem hface) (parse_vn_ok_scan hB)
  have hP := runLines_inv
    (fun sd => 3 * sd.tex_coords.length = 2 * sd.points.length)
    content s0 st hstep hrun (by rw [hs0]; rfl)
  rw [hm]
  unfold ObjMesh.new
  dsimp
  omega

theorem load_texB {content : List String} {m : ObjMesh}
    (h : load_obj_file content = .ok m)
    (hB : ∀ l ∈ content, isFaceLine l = true → scan_f_vtn l = none) :
    m.tex_coords.length = 0 := by
  obtain ⟨s0, st, hs0, hrun, hm⟩ := load_obj_file_ok_elim h
  have hstep : ∀ sa l sb, l ∈ content → loadStep sa l = .ok sb →
      sa.sorted.tex_coords.length = 0 → sb.sorted.tex_coords.length = 0 := by
    intro sa l sb hmem hl hPa
    rcases loadStep_ok_cases hl with hsame | ⟨hface, hA1 | ⟨-, hB1⟩⟩
    · rw [hsame]; exact hPa
    · exact absurd (hB l hmem hface) (parse_vtn_ok_scan hA1)
    · obtain ⟨p, t, n⟩ := parse_vn_ok_lengths hB1
      rw [t]
      exact hPa
  have hP := runLines_inv (fun sd => sd.tex_coords.length = 0)
    content s0 st hstep hrun (by rw [hs0]; rfl)
  rw [hm]
  unfold ObjMesh.new
  dsimp
  exact hP

/-- Claim C1, counterexample: the claimed invariant — `tex_coords.length`
is `0` or `2 * point_count` for every successfully loaded mesh,
including meshes from files that mix the `p/t/n` and `p//n` face
grammars — is false.  `mixedFixture` mixes the grammars, loads
successfully, and yields `tex_coords.length = 6` with
`point_count = 6`, and `6` is neither `0` nor `12`: the grammar-A face
pushed six texture components and the grammar-B face pushed none. -/
theorem claim_C1_counterexample :
    load_obj_file mixedFixture = .ok mixedMesh ∧
    ¬(mixedMesh.tex_coords.length = 0 ∨
      mixedMesh.tex_coords.length = 2 * mixedMesh.point_count) :=
  ⟨by decide, by decide⟩

/-- Claim C1, amended: for every mesh successfully returned by
`load_obj_file`, `points.length = 3 * point_count` and
`normals.length = 3 * point_count`; `tex_coords.length =
2 * point_count` holds whenever no face line of the input matches the
`p//n` grammar, and `tex_coords.length = 0` holds whenever no face
line matches the `p/t/n` grammar — but not for every input mixing the
two grammars. -/
theorem claim_C1_amended (content : List String) (m : ObjMesh)
    (h : load_obj_file content = .ok m) :
    m.points.length = 3 * m.point_count ∧
    m.normals.length = 3 * m.point_count ∧
    ((∀ l ∈ content, isFaceLine l = true → scan_f_vn l = none) →
      m.tex_coords.length = 2 * m.point_count) ∧
    ((∀ l ∈ content, isFaceLine l = true → scan_f_vtn l = none) →
      m.tex_coords.length = 0) := by
  obtain ⟨hpts, hnm⟩ := load_lengths_inv h
  refine ⟨hpts, by omega, fun hA => ?_, fun hB => load_texB h hB⟩
  have h3 := load_texA h hA
  omega

/-- Claim C1, witness: the amended theorem applied to the grammar-A-only
input `fileA`. -/
theorem claim_C1_witness :
    fileAMesh.tex_coords.length = 2 * fileAMesh.point_count :=
  (claim_C1_amended fileA fileAMesh (by decide)).2.2.1 (by decide)

/-- Claim C2: the claim says a face referencing position index `0` or
an index above the declared position count yields `IndexOutOfRange`
and never a crash.  The code falsifies both parts.  First conjunct:
`fileIdx2` references position `2` with one declared position; the
guard compares `2 - 1` against the flattened length `3`, passes, and
the push then panics indexing `vp[3]` — a crash, not an error.  Second
conjunct: `fileIdx0` references position `0`; the `u32` underflow wraps,
the guard catches it inside `parse_vn`, but `load_obj_mesh` discards
that error, retries nothing sensible, and surfaces the malformed-face
error — the caller never sees an `IndexOutOfRange` category. -/
theorem claim_C2_code_bug :
    load_obj_file fileIdx2 = .panic msgIndexOutOfBounds ∧
    load_obj_file fileIdx0 = .err (.malformedFaceLine lineIdx0) :=
  ⟨by decide, by decide⟩

/-- Claim C3: a face line whose slash count differs from 6 makes the
loop return the `UnsupportedTopology` error before any numeric parsing
— for every loop state and every such line, independent of the line's
numeric content. -/
theorem claim_C3 (s : LoadState) (line : String) (i : ℕ)
    (hskip : skip_spaces line.toList = .ok i)
    (hf : line.toList.getD i ' ' = 'f')
    (hslash : (line.toList.drop i).count '/' ≠ 6) :
    loadStep s line = .err .unsupportedTopology := by
  have hfv : ('f' : Char) ≠ 'v' := by decide
  unfold loadStep
  dsimp only
  rw [hskip]
  dsimp only
  rw [hf, if_neg hfv, if_pos rfl]
  unfold faceStep
  rw [if_pos hslash]

/-- Claim C3, witness: the quad face line `f 1/1/1 2/2/2 3/3/3 4/4/4`
(8 slashes) from the state holding one position and one normal. -/
theorem claim_C3_witness :
    loadStep stateBN lineQuad = .err .unsupportedTopology :=
  claim_C3 stateBN lineQuad 0 (by decide) (by decide) (by decide)

/-- Claim C4: the claim says a `v`/`vt`/`vn`-prefixed line whose numeric
fields fail to parse aborts the load with a `MalformedAttributeLine`
error rather than panicking.  The code falsifies this: the second pass
`unwrap`s every capture of the scan, so `v foo bar baz` panics instead
of returning an error. -/
theorem claim_C4_code_bug :
    load_obj_file fileBadV = .panic msgUnwrapNone := by decide

/-- Claim C5: on a face line with exactly 6 slashes the loop first
attempts grammar A (`parse_vtn`); when A returns an error it attempts
grammar B (`parse_vn`); only when both return errors does it return the
malformed-face-line error.  The statement is for every loop state, so
each face line is handled independently of which grammar matched other
lines. -/
theorem claim_C5 (s : LoadState) (line : String) (i : ℕ)
    (hskip : skip_spaces line.toList = .ok i)
    (hf : line.toList.getD i ' ' = 'f')
    (hslash : (line.toList.drop i).count '/' = 6) :
    (∀ t, parse_vtn line s.unsorted s.sorted = .ok t →
        loadStep s line = .ok { s with sorted := t }) ∧
    (∀ e t, parse_vtn line s.unsorted s.sorted = .err e →
        parse_vn line s.unsorted s.sorted = .ok t →
        loadStep s line = .ok { s with sorted := t }) ∧
    (∀ e1 e2, parse_vtn line s.unsorted s.sorted = .err e1 →
        parse_vn line s.unsorted s.sorted = .err e2 →
        loadStep s line = .err (.malformedFaceLine line)) := by
  have hfv : ('f' : Char) ≠ 'v' := by decide
  have hns : ¬((line.toList.drop i).count '/' ≠ 6) := fun hc => hc hslash
  refine ⟨fun t ht => ?_, fun e t he ht => ?_, fun e1 e2 h1 h2 => ?_⟩
  · unfold loadStep
    dsimp only
    rw [hskip]
    dsimp only
    rw [hf, if_neg hfv, if_pos rfl]
    unfold faceStep
    rw [if_neg hns, ht]
  · unfold loadStep
    dsimp only
    rw [hskip]
    dsimp only
    rw [hf, if_neg hfv, if_pos rfl]
    unfold faceStep
    rw [if_neg hns, he, ht]
  · unfold loadStep
    dsimp only
    rw [hskip]
    dsimp only
    rw [hf, if_neg hfv, if_pos rfl]
    unfold faceStep
    rw [if_neg hns, h1, h2]

/-- Claim C5, witness: the grammar-B line `f 1//1 1//1 1//1` from the
state holding one position and one normal — grammar A fails with its
face-declaration error, grammar B succeeds, and the loop takes B's
output buffers. -/
theorem claim_C5_witness :
    loadStep stateBN lineB = .ok { stateBN with sorted := sortedBN } :=
  (claim_C5 stateBN lineB 0 (by decide) (by decide) (by decide)).2.1
    (.faceDeclVtn lineB) sortedBN (by decide) (by decide)

/-- Claim C6: the claim says the counting/classification pass completes
on every input, ignoring blank lines and foreign line types, so only
numeric-parse and index errors can fail a load.  The code falsifies
this: on an input containing one empty line, `skip_spaces` computes
`bytes.len() - 1` on an empty slice and the pass panics — in
`count_vertices` and hence in `load_obj_mesh` as well. -/
theorem claim_C6_code_bug :
    count_vertices { lines := fileBlank, pos := 0 } = .panic msgSkipSpacesUnderflow ∧
    load_obj_file fileBlank = .panic msgSkipSpacesUnderflow :=
  ⟨by decide, by decide⟩

/-- Claim C7: `count_vertices` on the unit-cube fixture returns exactly
`(8, 0, 6, 12)` — 8 positions, 0 texture coordinates, 6 normals, 12
faces — and returns the reader rewound to its start. -/
theorem claim_C7 :
    count_vertices { lines := cubeFixture, pos := 0 } =
      .ok ((8, 0, 6, 12), { lines := cubeFixture, pos := 0 }) := by decide

/-- Claim C8: loading the unit-cube fixture succeeds with
`point_count = 36` (12 faces × 3 vertices, duplicates kept), empty
`tex_coords`, and `points`/`normals` equal to the literal sequences
obtained by expanding each face's referenced position and normal
triples in file order, vertices in face-line order. -/
theorem claim_C8 : load_obj_file cubeFixture = .ok cubeMesh := by decide

/-- Claim C9: loading is deterministic — two loads of the same content
that both succeed produce meshes with the same `point_count`,
`points`, `tex_coords` and `normals`. -/
theorem claim_C9 (content : List String) (m1 m2 : ObjMesh)
    (h1 : load_obj_file content = .ok m1)
    (h2 : load_obj_file content = .ok m2) :
    m1.point_count = m2.point_count ∧ m1.points = m2.points ∧
    m1.tex_coords = m2.tex_coords ∧ m1.normals = m2.normals := by
  rw [h1] at h2
  injection h2 with h2
  rw [h2]
  exact ⟨rfl, rfl, rfl, rfl⟩

/-- Claim C9, witness: two loads of `fileB`. -/
theorem claim_C9_witness :
    fileBMesh.point_count = fileBMesh.point_count ∧
    fileBMesh.points = fileBMesh.points ∧
    fileBMesh.tex_coords = fileBMesh.tex_coords ∧
    fileBMesh.normals = fileBMesh.normals :=
  claim_C9 fileB fileBMesh fileBMesh (by decide) (by decide)

/-- Claim C10: for every successfully loaded mesh, `normals.length`
equals `points.length` exactly (hence `3 * point_count`): both face
grammars append a normal triple for every emitted vertex, so `normals`
is empty only when `point_count` is zero. -/
theorem claim_C10 (content : List String) (m : ObjMesh)
    (h : load_obj_file content = .ok m) :
    m.normals.length = m.points.length ∧
    m.points.length = 3 * m.point_count ∧
    (m.point_count = 0 → m.normals = []) := by
  obtain ⟨hpts, hnm⟩ := load_lengths_inv h
  refine ⟨hnm, hpts, fun h0 => ?_⟩
  have hz : m.normals.length = 0 := by omega
  exact List.length_eq_zero.mp hz

/-- Claim C10, witness: the grammar-B-only input `fileB`, whose source
declares normals for each emitted vertex. -/
theorem claim_C10_witness :
    fileBMesh.normals.length = fileBMesh.points.length ∧
    fileBMesh.points.length = 3 * fileBMesh.point_count ∧
    (fileBMesh.point_count = 0 → fileBMesh.normals = []) :=
  claim_C10 fileB fileBMesh (by decide)

end ObjParser
